import Mathlib

/-!
Verification of the filter-and-aggregate dashboard in
`src/scripts/dashboard.py`.

The script loads a survey CSV into a pandas DataFrame, maps a fixed set of
satisfaction columns to numeric scores, and serves one reactive callback
(`update_dashboard`) that filters the table by facility and respondent sex
and recomputes a summary plus two bar charts of per-column means.

Shallow embedding notes:
* A cell of the table is text, a (rational) number, or the missing marker
  (pandas `NaN`).  Floats in the source hold small integral scores; they are
  modelled by `Rat`, with pandas `NaN` as `Cell.missing`.
* A column is "numeric dtype" exactly when it holds no textual cell, which is
  how `pandas.read_csv` assigns dtypes to CSV columns (a column parses to a
  numeric dtype iff no value is left as text).
* `Series.mean`, `Series.max` skip missing values, as in pandas
  (`skipna=True` defaults).
* `Series.sort_values(ascending=False)` with the default `quicksort` kind is
  modelled as a stable descending sort.  pandas' `nargsort` reverses the
  non-missing values, argsorts, and reverses the result, so ties keep input
  order whenever the underlying numpy sort is stable; numpy's quicksort is
  plain insertion sort for arrays shorter than 16 elements, and the series
  sorted here have at most 8 entries.  Missing means are placed last, in
  input order (`na_position` defaults to `last`).
* The two plotly figures are modelled by the data that feeds them: a bar
  chart is its ordered list of (column name, mean) pairs plus its title; the
  placeholder figures `\x7b'layout': \x7b'title': ...\x7d\x7d` are modelled
  by `Fig.placeholder` with the same title string.
* The summary card is modelled by the values interpolated into its text:
  respondent count, mean overall satisfaction, and the "out of N" maximum
  score.  `exit()` at startup is modelled by `Except.error`.
-/

namespace Dashboard

/-- One cell of the survey table: text, a numeric score, or missing (NaN). -/
inductive Cell where
  | str (s : String)
  | num (q : Rat)
  | missing
deriving DecidableEq, Repr

/-- `True` iff the cell is not textual (numeric or missing). -/
def Cell.isNumOrMissing : Cell → Bool
  | .str _ => false
  | _ => true

/-- The numeric value of a cell, if any. -/
def Cell.toNum : Cell → Option Rat
  | .num q => some q
  | _ => none

/-- `care_satisfaction_cols` from dashboard.py (fixed list, source order). -/
def care_satisfaction_cols : List String :=
  ["satisfaction_waiting_time", "Time with the health provider",
   "Privacy during examination", "Staff attitude",
   "Opening hours of the facility", "Quality of the advice and information",
   "satisfaction_procedure_treatment", "overall_satisfaction_rating"]

/-- `facility_satisfaction_cols` from dashboard.py. -/
def facility_satisfaction_cols : List String :=
  ["facility_cleanliness_rating", "facility_condition_rating",
   "facility_info_displayed_rating", "facility_private_talk_spaces_rating",
   "facility_ease_of_movement_rating", "facility_waiting_comfort_rating"]

/-- `filter_cols` from dashboard.py. -/
def filter_cols : List String := ["health_facility", "respondent_sex"]

/-- `all_satisfaction_cols = care_satisfaction_cols + facility_satisfaction_cols`. -/
def all_satisfaction_cols : List String :=
  care_satisfaction_cols ++ facility_satisfaction_cols

/-- Position of `overall_satisfaction_rating` inside `all_satisfaction_cols`. -/
def overallIdx : Nat := 7

/-- Column indices of the care group inside `all_satisfaction_cols`. -/
def careIdxs : List Nat := [0, 1, 2, 3, 4, 5, 6, 7]

/-- Column indices of the facility group inside `all_satisfaction_cols`. -/
def facIdxs : List Nat := [8, 9, 10, 11, 12, 13]

/-- One row of the survey table: the two filter attributes (missing when the
CSV cell is empty) and the satisfaction cells, positionally aligned with
`all_satisfaction_cols`. -/
structure Row where
  health_facility : Option String
  respondent_sex : Option String
  sat : List Cell
deriving DecidableEq, Repr

/-- The survey table: one row per respondent. -/
abbrev Table := List Row

/-- Column `i` of the table (the `sat` cells at position `i`). -/
def getCol (t : Table) (i : Nat) : List Cell :=
  t.map fun r => r.sat.getD i Cell.missing

/-- `pd.api.types.is_numeric_dtype` for a CSV-loaded column: numeric dtype
iff no cell is textual. -/
def is_numeric_dtype (cells : List Cell) : Bool :=
  cells.all Cell.isNumOrMissing

/-- `satisfaction_mapping` from dashboard.py, as a lookup. -/
def satisfaction_mapping (s : String) : Option Rat :=
  if s = "Satisfied" then some 3
  else if s = "somewhat satisfied" then some 2
  else if s = "Dissatisfied" then some 1
  else if s = "Excellent" then some 3
  else if s = "Good" then some 2
  else if s = "Fair" then some 1
  else if s = "Poor" then some 0
  else none

/-- `Series.replace(satisfaction_mapping)` on one cell: a textual cell equal
to a mapping key becomes its score; every other cell is untouched. -/
def replace_mapping (c : Cell) : Cell :=
  match c with
  | .str s => match satisfaction_mapping s with
              | some q => .num q
              | none => .str s
  | c => c

/-- Digits-only parse used by `parseNum`. -/
def parseDigits (l : List Char) : Option Nat :=
  if l.isEmpty then none
  else if l.all Char.isDigit then
    some (l.foldl (fun n c => 10 * n + (c.toNat - 48)) 0)
  else none

/-- Numeric parse of a string, as `pd.to_numeric` does for string cells:
an optional sign, an integer part, an optional fractional part.
(Exotic float syntax such as exponents is not used by this dataset.) -/
def parseNum (s : String) : Option Rat :=
  let (neg, body) :=
    match s.toList with
    | '-' :: rest => (true, rest)
    | l => (false, l)
  let mk : Rat → Option Rat := fun q => some (if neg then -q else q)
  match (String.mk body).splitOn "." with
  | [intPart] =>
      match parseDigits intPart.toList with
      | some n => mk n
      | none => none
  | [intPart, fracPart] =>
      match parseDigits intPart.toList, parseDigits fracPart.toList with
      | some n, some f =>
          mk ((n : Rat) + (f : Rat) / ((10 : Rat) ^ fracPart.length))
      | _, _ => none
  | _ => none

/-- `pd.to_numeric(..., errors='coerce')` on one cell: numbers pass through,
parseable text becomes its number, anything else becomes missing. -/
def to_numeric_cell (c : Cell) : Cell :=
  match c with
  | .str s => match parseNum s with
              | some q => .num q
              | none => .missing
  | .num q => .num q
  | .missing => .missing

/-- The per-column numeric-dtype flags of the table, one per satisfaction
column, computed before the mapping loop runs. -/
def dtypeFlags (t : Table) : List Bool :=
  (List.range all_satisfaction_cols.length).map fun i =>
    is_numeric_dtype (getCol t i)

/-- The mapping loop of dashboard.py applied to the cells of one row, guided
by the per-column dtype flags: a column that is already numeric dtype is left
alone (the `elif` branch's inner coercion is dead code there, since its guard
repeats the outer one); a non-numeric column is replaced via the mapping and
then coerced. -/
def cleanCells : List Bool → List Cell → List Cell
  | _, [] => []
  | [], c :: cs => c :: cleanCells [] cs
  | b :: bs, c :: cs =>
      (if b then c else to_numeric_cell (replace_mapping c)) :: cleanCells bs cs

/-- Section 2 of dashboard.py: the cleaning/mapping step over the whole
table. -/
def cleanTable (t : Table) : Table :=
  t.map fun r => { r with sat := cleanCells (dtypeFlags t) r.sat }

/-- Ascending insertion of a string into a sorted list (`sorted` helper). -/
def insertStr (a : String) : List String → List String
  | [] => [a]
  | b :: bs => if b < a then b :: insertStr a bs else a :: b :: bs

/-- Python's `sorted` on a list of strings. -/
def sortStr : List String → List String
  | [] => []
  | a :: l => insertStr a (sortStr l)

/-- The facility values present in the table:
`sorted(df['health_facility'].dropna().unique())` from the options list. -/
def facility_values (t : Table) : List String :=
  sortStr (t.filterMap (fun r => r.health_facility)).dedup

/-- The sex values present in the table:
`sorted(df['respondent_sex'].dropna().unique())`. -/
def sex_values (t : Table) : List String :=
  sortStr (t.filterMap (fun r => r.respondent_sex)).dedup

/-- Option values of the facility dropdown: the sentinel then the values. -/
def facility_options (t : Table) : List String := "all" :: facility_values t

/-- Option values of the sex dropdown: the sentinel then the values. -/
def sex_options (t : Table) : List String := "all" :: sex_values t

/-- `Series.isin(sel)` on one cell of a filter column: a missing value is in
no list of strings. -/
def isinOpt (sel : List String) : Option String → Bool
  | some s => sel.contains s
  | none => false

/-- The facility branch of the filtering logic:
`if selected_facilities and 'all' not in selected_facilities: ... isin ...`. -/
def facilityFilter (sel : List String) (t : Table) : Table :=
  if !sel.isEmpty && !(sel.contains "all") then
    t.filter fun r => isinOpt sel r.health_facility
  else t

/-- The sex branch of the filtering logic. -/
def sexFilter (sel : List String) (t : Table) : Table :=
  if !sel.isEmpty && !(sel.contains "all") then
    t.filter fun r => isinOpt sel r.respondent_sex
  else t

/-- Non-reset filtering: facility filter then sex filter, as in the source. -/
def applyFilters (t : Table) (fsel ssel : List String) : Table :=
  sexFilter ssel (facilityFilter fsel t)

/-- The `filtered_df` a callback invocation works on: the full table under
reset, the doubly filtered table otherwise. -/
def filteredOf (df : Table) (fsel ssel : List String) (reset : Bool) : Table :=
  if reset then df else applyFilters df fsel ssel

/-- `Series.mean()` with pandas' default `skipna`: the arithmetic average of
the non-missing numeric entries, `NaN` (here `none`) when there are none. -/
def colMean (cells : List Cell) : Option Rat :=
  let nums := cells.filterMap Cell.toNum
  if nums.isEmpty then none else some (nums.sum / (nums.length : Rat))

/-- `Series.max()` with pandas' default `skipna`: the maximum of the
non-missing numeric entries, `NaN` (here `none`) when there are none. -/
def colMax (cells : List Cell) : Option Rat :=
  (cells.filterMap Cell.toNum).max?

/-- The `max_score` computation of the callback: start from the fallback 3,
then take the observed maximum of `overall_satisfaction_rating` over the FULL
table whenever that (coerced) series is non-empty. -/
def maxScoreOf (df : Table) : Option Rat :=
  if (getCol df overallIdx).isEmpty then some 3
  else colMax ((getCol df overallIdx).map to_numeric_cell)

/-- Descending insertion keeping an earlier element before later ties. -/
def insertDesc (p : String × Rat) : List (String × Rat) → List (String × Rat)
  | [] => [p]
  | q :: qs => if p.2 ≥ q.2 then p :: q :: qs else q :: insertDesc p qs

/-- Stable descending sort by value (insertion sort). -/
def sortDesc : List (String × Rat) → List (String × Rat)
  | [] => []
  | p :: ps => insertDesc p (sortDesc ps)

/-- `Series.sort_values(ascending=False)` on a series of optional means:
the non-missing entries stably sorted descending, then the missing entries in
input order (`na_position='last'`). -/
def seriesSortDesc (l : List (String × Option Rat)) : List (String × Option Rat) :=
  (sortDesc (l.filterMap fun p => p.2.map fun v => (p.1, v))).map
      (fun p => (p.1, some p.2))
    ++ l.filter fun p => p.2.isNone

/-- `filtered_df[cols].select_dtypes(include=np.number).mean()`: the series of
per-column means over the numeric-dtype columns of the group, in group
order. -/
def groupMeans (t : Table) (idxs : List Nat) : List (String × Option Rat) :=
  (idxs.filter fun i => is_numeric_dtype (getCol t i)).map fun i =>
    (all_satisfaction_cols.getD i "", colMean (getCol t i))

/-- A chart output: a real bar chart (its ordered data and title) or a
placeholder figure carrying only a title. -/
inductive Fig where
  | placeholder (title : String)
  | bar (data : List (String × Option Rat)) (title : String)
deriving DecidableEq, Repr

/-- The summary card: the no-data message, or the values interpolated into
the summary text (respondent count, mean overall satisfaction, max score). -/
inductive Summary where
  | noData
  | stats (numRespondents : Nat) (avgOverall : Option Rat) (maxScore : Option Rat)
deriving DecidableEq, Repr

/-- The five outputs of one callback invocation. -/
structure Output where
  summary : Summary
  figCare : Fig
  figFacility : Fig
  facValue : List String
  sexValue : List String
deriving DecidableEq, Repr

/-- The reactive callback `update_dashboard(selected_facilities,
selected_sexes, reset_clicks)`; `reset` is `ctx.triggered_id ==
'reset-button'`. -/
def update_dashboard (df : Table) (selected_facilities selected_sexes : List String)
    (reset : Bool) : Output :=
  let filtered_df := filteredOf df selected_facilities selected_sexes reset
  let echoFac := if reset then ["all"] else selected_facilities
  let echoSex := if reset then ["all"] else selected_sexes
  if filtered_df.isEmpty then
    { summary := .noData
      figCare := .placeholder "No data to display"
      figFacility := .placeholder "No data to display"
      facValue := echoFac
      sexValue := echoSex }
  else
    let care_means := seriesSortDesc (groupMeans filtered_df careIdxs)
    let facility_means := seriesSortDesc (groupMeans filtered_df facIdxs)
    { summary := .stats filtered_df.length
        (colMean (getCol filtered_df overallIdx)) (maxScoreOf df)
      figCare :=
        if !care_means.isEmpty then
          .bar care_means "Average Care Satisfaction Scores"
        else .placeholder "No numeric care data to display"
      figFacility :=
        if !facility_means.isEmpty then
          .bar facility_means "Average Facility Satisfaction Scores"
        else .placeholder "No numeric facility data to display"
      facValue := echoFac
      sexValue := echoSex }

/-- The columns of the raw CSV as loaded, before any check. -/
structure RawCSV where
  columns : List String
deriving DecidableEq, Repr

/-- `missing_cols`: the required columns absent from the loaded table. -/
def missing_cols (columns : List String) : List String :=
  (all_satisfaction_cols ++ filter_cols).filter fun c => !columns.contains c

/-- Startup of dashboard.py: `pd.read_csv` inside `try/except FileNotFoundError`
(`none` = the file is absent) followed by the required-column check; both
failure paths print a diagnostic and call `exit()`, modelled by
`Except.error` carrying the printed message. -/
def loadStartup (file : Option RawCSV) : Except String RawCSV :=
  match file with
  | none => .error "Error: data file not found. Please ensure the file exists at this location."
  | some csv =>
      if !(missing_cols csv.columns).isEmpty then
        .error "Error: required columns are missing from the data. Please check the column names in the CSV file."
      else .ok csv

/-- The order a bar chart's data is claimed to satisfy: entries with defined
means descend, and entries with missing means (pandas NaN) come last. -/
def barRel (p q : String × Option Rat) : Prop :=
  match p.2, q.2 with
  | some a, some b => b ≤ a
  | none, some _ => False
  | _, _ => True

/-- Concrete instance for C3: a textual `Satisfied` cell in the first
satisfaction column. -/
def C3T : Table := [⟨some "A", some "F", [Cell.str "Satisfied"]⟩]

/-- A CSV with all required columns present. -/
def fullColumns : List String := all_satisfaction_cols ++ filter_cols

/-- A two-row, already-numeric table: facility A / male, overall rating 3;
facility B / female, overall rating 2 (other satisfaction cells missing). -/
def sampleTwo : Table :=
  [⟨some "A", some "M",
    [Cell.missing, Cell.missing, Cell.missing, Cell.missing,
     Cell.missing, Cell.missing, Cell.missing, Cell.num 3]⟩,
   ⟨some "B", some "F",
    [Cell.missing, Cell.missing, Cell.missing, Cell.missing,
     Cell.missing, Cell.missing, Cell.missing, Cell.num 2]⟩]

/-- A table with one row whose `health_facility` is missing (empty CSV cell)
next to a row whose facility is present. -/
def missingFacility : Table :=
  [⟨some "A", some "F", []⟩, ⟨none, some "F", []⟩]

/-- A one-row table whose satisfaction cells are all textual (unmappable), so
no satisfaction column has a numeric dtype. -/
def allText : Table :=
  [⟨some "A", some "F",
    [Cell.str "x", Cell.str "x", Cell.str "x", Cell.str "x", Cell.str "x",
     Cell.str "x", Cell.str "x", Cell.str "x", Cell.str "x", Cell.str "x",
     Cell.str "x", Cell.str "x", Cell.str "x", Cell.str "x"]⟩]

/-- A one-row table whose satisfaction cells are all missing: every column is
numeric dtype, yet every column has zero non-missing entries. -/
def allMissing : Table := [⟨some "A", some "F", []⟩]

/-- The care chart data for `sampleTwo` under the sentinel selections. -/
def sampleTwoCareData : List (String × Option Rat) :=
  [("overall_satisfaction_rating", some (5 / 2 : Rat)),
   ("satisfaction_waiting_time", none), ("Time with the health provider", none),
   ("Privacy during examination", none), ("Staff attitude", none),
   ("Opening hours of the facility", none),
   ("Quality of the advice and information", none),
   ("satisfaction_procedure_treatment", none)]

/-- The care chart data for `sampleTwo` filtered to facility B. -/
def sampleTwoBCareData : List (String × Option Rat) :=
  [("overall_satisfaction_rating", some (2 : Rat)),
   ("satisfaction_waiting_time", none), ("Time with the health provider", none),
   ("Privacy during examination", none), ("Staff attitude", none),
   ("Opening hours of the facility", none),
   ("Quality of the advice and information", none),
   ("satisfaction_procedure_treatment", none)]

/-- The care chart data for `allMissing`: a bar per column, all means NaN. -/
def allMissingCareData : List (String × Option Rat) :=
  [("satisfaction_waiting_time", none), ("Time with the health provider", none),
   ("Privacy during examination", none), ("Staff attitude", none),
   ("Opening hours of the facility", none),
   ("Quality of the advice and information", none),
   ("satisfaction_procedure_treatment", none),
   ("overall_satisfaction_rating", none)]

/-! ### Helper lemmas -/

@[simp]
theorem cleanCells_nil (bs : List Bool) : cleanCells bs [] = [] := by
  cases bs <;> rfl

theorem to_numeric_cell_isNumOrMissing (c : Cell) :
    (to_numeric_cell c).isNumOrMissing = true := by
  cases c with
  | str s =>
      simp only [to_numeric_cell]
      cases parseNum s <;> rfl
  | num q => rfl
  | missing => rfl

theorem cleanCells_getD (bs : List Bool) (cs : List Cell) (i : Nat) :
    (cleanCells bs cs).getD i Cell.missing =
      if i < cs.length then
        (if bs.getD i true then cs.getD i Cell.missing
         else to_numeric_cell (replace_mapping (cs.getD i Cell.missing)))
      else Cell.missing := by
  induction cs generalizing bs i with
  | nil => simp
  | cons c cs ih =>
      cases bs with
      | nil =>
          cases i with
          | zero => simp [cleanCells]
          | succ j =>
              simp only [cleanCells, List.getD_cons_succ, ih, List.length_cons]
              simp [Nat.succ_lt_succ_iff]
      | cons b bs =>
          cases i with
          | zero => simp [cleanCells]
          | succ j =>
              simp only [cleanCells, List.getD_cons_succ, ih, List.length_cons]
              simp [Nat.succ_lt_succ_iff]

theorem dtypeFlags_getD (t : Table) (i : Nat)
    (hi : i < all_satisfaction_cols.length) :
    (dtypeFlags t).getD i true = is_numeric_dtype (getCol t i) := by
  simp [dtypeFlags, List.getD_eq_getElem?_getD, List.getElem?_map,
    List.getElem?_range, hi]

theorem mem_getCol_of_mem {t : Table} {r : Row} (hr : r ∈ t) (i : Nat) :
    r.sat.getD i Cell.missing ∈ getCol t i :=
  List.mem_map_of_mem _ hr

/-! ### Sorting lemmas -/

theorem insertDesc_perm (p : String × Rat) (l : List (String × Rat)) :
    (insertDesc p l).Perm (p :: l) := by
  induction l with
  | nil => exact List.Perm.refl _
  | cons q qs ih =>
      simp only [insertDesc]
      split
      · exact List.Perm.refl _
      · exact (ih.cons q).trans (List.Perm.swap p q qs)

theorem sortDesc_perm (l : List (String × Rat)) : (sortDesc l).Perm l := by
  induction l with
  | nil => exact List.Perm.refl _
  | cons p ps ih => exact (insertDesc_perm p (sortDesc ps)).trans (ih.cons p)

theorem pairwise_insertDesc (p : String × Rat) (l : List (String × Rat))
    (h : l.Pairwise fun a b => b.2 ≤ a.2) :
    (insertDesc p l).Pairwise fun a b => b.2 ≤ a.2 := by
  induction l with
  | nil => simp [insertDesc]
  | cons q qs ih =>
      rw [List.pairwise_cons] at h
      simp only [insertDesc]
      split
      · rename_i hpq
        rw [List.pairwise_cons]
        refine ⟨?_, List.pairwise_cons.mpr h⟩
        intro x hx
        rcases List.mem_cons.mp hx with rfl | hx
        · exact hpq
        · exact le_trans (h.1 x hx) hpq
      · rename_i hpq
        rw [List.pairwise_cons]
        refine ⟨?_, ih h.2⟩
        intro x hx
        rcases List.mem_cons.mp ((insertDesc_perm p qs).mem_iff.mp hx) with hx | hx
        · rw [hx]
          exact le_of_not_le hpq
        · exact h.1 x hx

theorem sortDesc_pairwise (l : List (String × Rat)) :
    (sortDesc l).Pairwise fun a b => b.2 ≤ a.2 := by
  induction l with
  | nil => simp [sortDesc]
  | cons p ps ih => exact pairwise_insertDesc p (sortDesc ps) ih

theorem filter_insertDesc_ne (p : String × Rat) (l : List (String × Rat))
    (v : Rat) (h : p.2 ≠ v) :
    (insertDesc p l).filter (fun q => q.2 == v)
      = l.filter fun q => q.2 == v := by
  induction l with
  | nil => simp [insertDesc, h]
  | cons q qs ih =>
      simp only [insertDesc]
      split
      · simp [List.filter_cons, h]
      · simp only [List.filter_cons, ih]

theorem filter_insertDesc_eq (p : String × Rat) (l : List (String × Rat))
    (v : Rat) (h : p.2 = v) :
    (insertDesc p l).filter (fun q => q.2 == v)
      = p :: l.filter fun q => q.2 == v := by
  induction l with
  | nil => simp [insertDesc, h]
  | cons q qs ih =>
      simp only [insertDesc]
      split
      · simp [List.filter_cons, h]
      · rename_i hpq
        have hq : (q.2 == v) = false := by
          simp only [beq_eq_false_iff_ne, ne_eq]
          intro hqv
          refine hpq ?_
          rw [hqv, h]
        simp [List.filter_cons, hq, ih]

theorem sortDesc_filter (l : List (String × Rat)) (v : Rat) :
    (sortDesc l).filter (fun q => q.2 == v) = l.filter fun q => q.2 == v := by
  induction l with
  | nil => rfl
  | cons p ps ih =>
      simp only [sortDesc, List.filter_cons]
      by_cases hp : p.2 = v
      · rw [filter_insertDesc_eq p _ v hp, ih]
        simp [hp]
      · rw [filter_insertDesc_ne p _ v hp, ih]
        simp [hp]

theorem barRel_none_right (p q : String × Option Rat) (h : q.2 = none) :
    barRel p q := by
  unfold barRel
  rw [h]
  cases p.2 <;> trivial

theorem pairwise_none (l : List (String × Option Rat))
    (h : ∀ p ∈ l, p.2 = none) : l.Pairwise barRel := by
  induction l with
  | nil => exact List.Pairwise.nil
  | cons p ps ih =>
      refine List.Pairwise.cons ?_ (ih fun q hq => h q (List.mem_cons_of_mem p hq))
      intro q hq
      exact barRel_none_right p q (h q (List.mem_cons_of_mem p hq))

theorem seriesSortDesc_pairwise (l : List (String × Option Rat)) :
    (seriesSortDesc l).Pairwise barRel := by
  unfold seriesSortDesc
  rw [List.pairwise_append]
  refine ⟨?_, ?_, ?_⟩
  · rw [List.pairwise_map]
    exact (sortDesc_pairwise _).imp fun hab => hab
  · refine pairwise_none _ fun p hp => ?_
    have := (List.mem_filter.mp hp).2
    exact Option.isNone_iff_eq_none.mp this
  · intro a _ b hb
    exact barRel_none_right a b
      (Option.isNone_iff_eq_none.mp (List.mem_filter.mp hb).2)

theorem filter_none_of_all_some (l : List (String × Rat)) :
    ((l.map fun p => (p.1, some p.2)).filter
        fun p : String × Option Rat => p.2.isNone) = [] := by
  induction l with
  | nil => rfl
  | cons p ps ih => simpa using ih

theorem seriesSortDesc_filter_none (l : List (String × Option Rat)) :
    (seriesSortDesc l).filter (fun p => p.2.isNone)
      = l.filter fun p => p.2.isNone := by
  unfold seriesSortDesc
  rw [List.filter_append, filter_none_of_all_some, List.nil_append,
    List.filter_filter]
  simp

theorem filter_some_filterMap (l : List (String × Option Rat)) (v : Rat) :
    l.filter (fun p => p.2 == some v)
      = ((l.filterMap fun p => p.2.map fun w => (p.1, w)).filter
          fun q => q.2 == v).map fun p => (p.1, some p.2) := by
  induction l with
  | nil => rfl
  | cons p ps ih =>
      obtain ⟨a, x⟩ := p
      cases x with
      | none => simpa using ih
      | some x =>
          by_cases hx : x = v
          · simp [List.filter_cons, hx, ih]
          · simp [List.filter_cons, hx, ih]

theorem seriesSortDesc_filter_some (l : List (String × Option Rat)) (v : Rat) :
    (seriesSortDesc l).filter (fun p => p.2 == some v)
      = l.filter fun p => p.2 == some v := by
  unfold seriesSortDesc
  rw [List.filter_append]
  have htail : (l.filter fun p => p.2.isNone).filter
      (fun p => p.2 == some v) = [] := by
    rw [List.filter_filter]
    apply List.filter_eq_nil_iff.mpr
    intro p _
    by_cases hp : p.2 = none <;> simp [hp]
  rw [htail, List.append_nil, List.filter_map]
  have : ((fun p : String × Option Rat => p.2 == some v) ∘
      fun p : String × Rat => (p.1, some p.2)) = fun q : String × Rat => q.2 == v := by
    funext q
    simp
  rw [this, sortDesc_filter, filter_some_filterMap]

theorem partition_perm (l : List (String × Option Rat)) :
    (((l.filterMap fun p => p.2.map fun w => (p.1, w)).map
        fun p => (p.1, some p.2))
      ++ l.filter fun p => p.2.isNone).Perm l := by
  induction l with
  | nil => exact List.Perm.refl _
  | cons p ps ih =>
      obtain ⟨a, x⟩ := p
      cases x with
      | none =>
          simp only [List.filterMap_cons, Option.map_none, List.filter_cons]
          simpa using (List.perm_middle.trans (ih.cons (a, none)))
      | some x =>
          simp only [List.filterMap_cons, Option.map_some, List.filter_cons]
          simpa using ih.cons (a, some x)

theorem seriesSortDesc_perm (l : List (String × Option Rat)) :
    (seriesSortDesc l).Perm l := by
  unfold seriesSortDesc
  exact (((sortDesc_perm _).map _).append_right _).trans (partition_perm l)

/-! ### Claim theorems -/

/-- C3: for every input table, after the cleaning/mapping step, every
satisfaction column holds only numeric values or missing markers; no textual
values remain. -/
theorem clean_numeric_or_missing (t : Table) (i : Nat)
    (hi : i < all_satisfaction_cols.length) :
    ∀ c ∈ getCol (cleanTable t) i, c.isNumOrMissing = true := by
  intro c hc
  simp only [getCol, cleanTable, List.map_map, List.mem_map] at hc
  obtain ⟨r, hr, rfl⟩ := hc
  simp only [Function.comp]
  rw [cleanCells_getD]
  by_cases hlen : i < r.sat.length
  · simp only [hlen, if_true]
    by_cases hb : (dtypeFlags t).getD i true
    · rw [if_pos hb]
      rw [dtypeFlags_getD t i hi] at hb
      have hmem := mem_getCol_of_mem hr i
      exact List.all_eq_true.mp hb _ hmem
    · rw [if_neg hb]
      exact to_numeric_cell_isNumOrMissing _
  · simp [hlen, Cell.isNumOrMissing]

theorem clean_numeric_or_missing_witness :
    Cell.num 3 ∈ getCol (cleanTable C3T) 0 ∧ (Cell.num 3).isNumOrMissing = true :=
  ⟨by decide, clean_numeric_or_missing C3T 0 (by decide) (Cell.num 3) (by decide)⟩

/-- C8: startup fails fatally (with a printed diagnostic) when the input file
is absent or any required column is missing, and proceeds otherwise. -/
theorem startup_fatal_checks :
    loadStartup none
      = .error "Error: data file not found. Please ensure the file exists at this location."
    ∧ (∀ csv : RawCSV, missing_cols csv.columns ≠ [] →
        loadStartup (some csv)
          = .error "Error: required columns are missing from the data. Please check the column names in the CSV file.")
    ∧ (∀ csv : RawCSV, missing_cols csv.columns = [] →
        loadStartup (some csv) = .ok csv) := by
  refine ⟨rfl, ?_, ?_⟩
  · intro csv h
    simp only [loadStartup]
    rw [if_pos]
    simpa using h
  · intro csv h
    simp [loadStartup, h]

theorem startup_fatal_checks_witness :
    loadStartup (some ⟨["health_facility"]⟩)
      = .error "Error: required columns are missing from the data. Please check the column names in the CSV file."
    ∧ loadStartup (some ⟨fullColumns⟩) = .ok ⟨fullColumns⟩ :=
  ⟨startup_fatal_checks.2.1 ⟨["health_facility"]⟩ (by decide),
   startup_fatal_checks.2.2 ⟨fullColumns⟩ (by decide)⟩

/-- C9: the facility filter and the sex filter commute. -/
theorem filters_commute (t : Table) (fsel ssel : List String) :
    sexFilter ssel (facilityFilter fsel t)
      = facilityFilter fsel (sexFilter ssel t) := by
  simp only [facilityFilter, sexFilter]
  split_ifs <;> simp [List.filter_comm, Bool.and_comm]

/-- C2: an invocation triggered by the reset signal produces exactly the same
five outputs as an invocation with both selections manually set to the
sentinel, whatever filter values were pending. -/
theorem reset_equiv_all (df : Table) (fsel ssel : List String) :
    update_dashboard df fsel ssel true
      = update_dashboard df ["all"] ["all"] false := rfl

/-- The summary and the two charts depend on the invocation only through the
filtered subset (and on the full table, for the max score). -/
theorem update_proj_congr (df : Table) (f1 s1 f2 s2 : List String)
    (r1 r2 : Bool) (h : filteredOf df f1 s1 r1 = filteredOf df f2 s2 r2) :
    (update_dashboard df f1 s1 r1).summary = (update_dashboard df f2 s2 r2).summary
    ∧ (update_dashboard df f1 s1 r1).figCare = (update_dashboard df f2 s2 r2).figCare
    ∧ (update_dashboard df f1 s1 r1).figFacility
        = (update_dashboard df f2 s2 r2).figFacility := by
  simp only [update_dashboard, h]
  split <;> exact ⟨rfl, rfl, rfl⟩

/-- C10: an empty selection list (not even the sentinel) bypasses that
dimension's filter: the subset and the three derived outputs match the
sentinel selection instead of being empty. -/
theorem empty_selection_bypass (df : Table) (fsel ssel : List String) :
    (filteredOf df [] ssel false = filteredOf df ["all"] ssel false
      ∧ (update_dashboard df [] ssel false).summary
          = (update_dashboard df ["all"] ssel false).summary
      ∧ (update_dashboard df [] ssel false).figCare
          = (update_dashboard df ["all"] ssel false).figCare
      ∧ (update_dashboard df [] ssel false).figFacility
          = (update_dashboard df ["all"] ssel false).figFacility)
    ∧ (filteredOf df fsel [] false = filteredOf df fsel ["all"] false
      ∧ (update_dashboard df fsel [] false).summary
          = (update_dashboard df fsel ["all"] false).summary
      ∧ (update_dashboard df fsel [] false).figCare
          = (update_dashboard df fsel ["all"] false).figCare
      ∧ (update_dashboard df fsel [] false).figFacility
          = (update_dashboard df fsel ["all"] false).figFacility) :=
  ⟨⟨rfl, update_proj_congr df [] ssel ["all"] ssel false false rfl⟩,
   ⟨rfl, update_proj_congr df fsel [] fsel ["all"] false false rfl⟩⟩

theorem filteredOf_nil (fsel ssel : List String) (reset : Bool) :
    filteredOf [] fsel ssel reset = [] := by
  simp [filteredOf, applyFilters, sexFilter, facilityFilter]

theorem insertStr_perm (a : String) (l : List String) :
    (insertStr a l).Perm (a :: l) := by
  induction l with
  | nil => exact List.Perm.refl _
  | cons b bs ih =>
      simp only [insertStr]
      split
      · exact (ih.cons b).trans (List.Perm.swap a b bs)
      · exact List.Perm.refl _

theorem sortStr_perm (l : List String) : (sortStr l).Perm l := by
  induction l with
  | nil => exact List.Perm.refl _
  | cons a bs ih => exact (insertStr_perm a (sortStr bs)).trans (ih.cons a)

/-- C4: both charts list the per-column means sorted descending, the sort is
stable (columns with equal means keep the group's input order, and columns
with missing means keep theirs at the end), and the chart data is exactly the
sorted mean series of the filtered subset. -/
theorem means_sorted_stable (t : Table) :
    ((seriesSortDesc (groupMeans t careIdxs)).Pairwise barRel
      ∧ (∀ v : Rat,
          (seriesSortDesc (groupMeans t careIdxs)).filter (fun p => p.2 == some v)
            = (groupMeans t careIdxs).filter fun p => p.2 == some v)
      ∧ (seriesSortDesc (groupMeans t careIdxs)).filter (fun p => p.2.isNone)
          = (groupMeans t careIdxs).filter fun p => p.2.isNone)
    ∧ ((seriesSortDesc (groupMeans t facIdxs)).Pairwise barRel
      ∧ (∀ v : Rat,
          (seriesSortDesc (groupMeans t facIdxs)).filter (fun p => p.2 == some v)
            = (groupMeans t facIdxs).filter fun p => p.2 == some v)
      ∧ (seriesSortDesc (groupMeans t facIdxs)).filter (fun p => p.2.isNone)
          = (groupMeans t facIdxs).filter fun p => p.2.isNone)
    ∧ (∀ (df : Table) (fsel ssel : List String) (reset : Bool)
        (data : List (String × Option Rat)) (ttl : String),
        (update_dashboard df fsel ssel reset).figCare = Fig.bar data ttl →
          data = seriesSortDesc (groupMeans (filteredOf df fsel ssel reset) careIdxs))
    ∧ (∀ (df : Table) (fsel ssel : List String) (reset : Bool)
        (data : List (String × Option Rat)) (ttl : String),
        (update_dashboard df fsel ssel reset).figFacility = Fig.bar data ttl →
          data = seriesSortDesc (groupMeans (filteredOf df fsel ssel reset) facIdxs)) := by
  refine ⟨⟨seriesSortDesc_pairwise _, fun v => seriesSortDesc_filter_some _ v,
      seriesSortDesc_filter_none _⟩,
    ⟨seriesSortDesc_pairwise _, fun v => seriesSortDesc_filter_some _ v,
      seriesSortDesc_filter_none _⟩, ?_, ?_⟩
  · intro df fsel ssel reset data ttl h
    by_cases hfe : (filteredOf df fsel ssel reset).isEmpty
    · simp [update_dashboard, hfe] at h
    · simp only [update_dashboard, hfe, Bool.false_eq_true, if_false] at h
      split at h
      · injection h with h1 h2
        exact h1.symm
      · exact Fig.noConfusion h
  · intro df fsel ssel reset data ttl h
    by_cases hfe : (filteredOf df fsel ssel reset).isEmpty
    · simp [update_dashboard, hfe] at h
    · simp only [update_dashboard, hfe, Bool.false_eq_true, if_false] at h
      split at h
      · injection h with h1 h2
        exact h1.symm
      · exact Fig.noConfusion h

set_option maxHeartbeats 1600000 in
theorem sampleTwoAll_figCare :
    (update_dashboard sampleTwo ["all"] ["all"] false).figCare
      = Fig.bar sampleTwoCareData "Average Care Satisfaction Scores" := by
  norm_num [update_dashboard, filteredOf, applyFilters, facilityFilter,
    sexFilter, isinOpt, getCol, is_numeric_dtype, Cell.isNumOrMissing,
    Cell.toNum, all_satisfaction_cols, care_satisfaction_cols,
    facility_satisfaction_cols, overallIdx, colMean, careIdxs, facIdxs,
    groupMeans, seriesSortDesc, sortDesc, insertDesc, sampleTwo,
    sampleTwoCareData, List.filterMap]
  all_goals decide

set_option maxHeartbeats 1600000 in
theorem sampleTwoB_summary :
    (update_dashboard sampleTwo ["B"] ["all"] false).summary
      = Summary.stats 1 (some 2) (some 3) := by
  norm_num [update_dashboard, filteredOf, applyFilters, facilityFilter,
    sexFilter, isinOpt, getCol, is_numeric_dtype, Cell.isNumOrMissing,
    Cell.toNum, to_numeric_cell, all_satisfaction_cols,
    care_satisfaction_cols, facility_satisfaction_cols, sampleTwo, overallIdx,
    colMean, maxScoreOf, colMax, List.filterMap, List.max?]
  all_goals decide

set_option maxHeartbeats 1600000 in
theorem sampleTwoB_figCare :
    (update_dashboard sampleTwo ["B"] ["all"] false).figCare
      = Fig.bar sampleTwoBCareData "Average Care Satisfaction Scores" := by
  norm_num [update_dashboard, filteredOf, applyFilters, facilityFilter,
    sexFilter, isinOpt, getCol, is_numeric_dtype, Cell.isNumOrMissing,
    Cell.toNum, all_satisfaction_cols, care_satisfaction_cols,
    facility_satisfaction_cols, overallIdx, colMean, careIdxs, facIdxs,
    groupMeans, seriesSortDesc, sortDesc, insertDesc, sampleTwo,
    sampleTwoBCareData, List.filterMap]
  all_goals decide

theorem means_sorted_stable_witness :
    (update_dashboard sampleTwo ["all"] ["all"] false).figCare
        = Fig.bar sampleTwoCareData "Average Care Satisfaction Scores"
    ∧ sampleTwoCareData
        = seriesSortDesc
            (groupMeans (filteredOf sampleTwo ["all"] ["all"] false) careIdxs) :=
  ⟨sampleTwoAll_figCare,
   (means_sorted_stable sampleTwo).2.2.1 sampleTwo ["all"] ["all"] false
     sampleTwoCareData "Average Care Satisfaction Scores" sampleTwoAll_figCare⟩

/-- C1: whenever the summary shows statistics, its max-score denominator is
the observed maximum of the (coerced) `overall_satisfaction_rating` column of
the FULL table; the right-hand side does not depend on the selections. -/
theorem max_score_global (df : Table) (fsel ssel : List String) (reset : Bool)
    (n : Nat) (avg m : Option Rat)
    (h : (update_dashboard df fsel ssel reset).summary = .stats n avg m) :
    m = colMax ((getCol df overallIdx).map to_numeric_cell) := by
  by_cases hfe : (filteredOf df fsel ssel reset).isEmpty
  · simp [update_dashboard, hfe] at h
  · simp only [update_dashboard, hfe, Bool.false_eq_true, if_false] at h
    injection h with h1 h2 h3
    have hdf : df ≠ [] := by
      intro hnil
      rw [hnil, filteredOf_nil] at hfe
      exact hfe rfl
    rw [← h3]
    simp [maxScoreOf, getCol, hdf]

set_option maxHeartbeats 800000 in
theorem max_score_global_witness :
    (some (3 : Rat) : Option Rat)
        = colMax ((getCol sampleTwo overallIdx).map to_numeric_cell)
    ∧ colMax (getCol (filteredOf sampleTwo ["B"] ["all"] false) overallIdx)
        = some (2 : Rat) :=
  ⟨max_score_global sampleTwo ["B"] ["all"] false 1 (some 2) (some 3)
      sampleTwoB_summary,
   by decide⟩

/-- C6: an empty filtered subset degrades all three outputs to the explicit
no-data placeholders, and a column group with no numeric columns degrades its
chart to that group's placeholder; no invocation fails. -/
theorem empty_and_nonnumeric_placeholders (df : Table)
    (fsel ssel : List String) (reset : Bool) :
    ((filteredOf df fsel ssel reset).isEmpty = true →
      (update_dashboard df fsel ssel reset).summary = Summary.noData
      ∧ (update_dashboard df fsel ssel reset).figCare
          = Fig.placeholder "No data to display"
      ∧ (update_dashboard df fsel ssel reset).figFacility
          = Fig.placeholder "No data to display")
    ∧ (groupMeans (filteredOf df fsel ssel reset) careIdxs = [] →
        (update_dashboard df fsel ssel reset).figCare
          = Fig.placeholder "No numeric care data to display")
    ∧ (groupMeans (filteredOf df fsel ssel reset) facIdxs = [] →
        (update_dashboard df fsel ssel reset).figFacility
          = Fig.placeholder "No numeric facility data to display") := by
  refine ⟨fun h => ?_, fun h => ?_, fun h => ?_⟩
  · simp [update_dashboard, h]
  · have hfe : ¬(filteredOf df fsel ssel reset).isEmpty = true := by
      intro hb
      rw [List.isEmpty_iff.mp hb] at h
      exact absurd h (by decide)
    simp [update_dashboard, hfe, h, seriesSortDesc, sortDesc]
  · have hfe : ¬(filteredOf df fsel ssel reset).isEmpty = true := by
      intro hb
      rw [List.isEmpty_iff.mp hb] at h
      exact absurd h (by decide)
    simp [update_dashboard, hfe, h, seriesSortDesc, sortDesc]

theorem empty_and_nonnumeric_placeholders_witness :
    ((update_dashboard sampleTwo ["Z"] ["all"] false).summary = Summary.noData
      ∧ (update_dashboard sampleTwo ["Z"] ["all"] false).figCare
          = Fig.placeholder "No data to display"
      ∧ (update_dashboard sampleTwo ["Z"] ["all"] false).figFacility
          = Fig.placeholder "No data to display")
    ∧ (update_dashboard allText ["all"] ["all"] false).figCare
        = Fig.placeholder "No numeric care data to display"
    ∧ (update_dashboard allText ["all"] ["all"] false).figFacility
        = Fig.placeholder "No numeric facility data to display" :=
  ⟨(empty_and_nonnumeric_placeholders sampleTwo ["Z"] ["all"] false).1 (by decide),
   (empty_and_nonnumeric_placeholders allText ["all"] ["all"] false).2.1 (by decide),
   (empty_and_nonnumeric_placeholders allText ["all"] ["all"] false).2.2 (by decide)⟩

/-- C7 counterexample: on a one-row table whose satisfaction cells are all
missing, the care group has zero non-missing numeric entries, yet the care
chart is a bar chart over eight missing means, not the placeholder, and the
summary shows statistics with a missing (NaN) average instead of a
placeholder. -/
theorem mean_placeholder_counterexample :
    ((getCol (filteredOf allMissing ["all"] ["all"] false) overallIdx).filterMap
        Cell.toNum = [])
    ∧ (update_dashboard allMissing ["all"] ["all"] false).figCare
        = Fig.bar allMissingCareData "Average Care Satisfaction Scores"
    ∧ (update_dashboard allMissing ["all"] ["all"] false).figCare
        ≠ Fig.placeholder "No numeric care data to display"
    ∧ (update_dashboard allMissing ["all"] ["all"] false).summary
        = Summary.stats 1 none none := by decide

/-- C7 as amended: every mean shown is the arithmetic average over the
non-missing numeric entries of its column within the filtered subset (a
column with zero non-missing entries gets a missing mean); the chart data is
a permutation of the group's mean series; but placeholders appear only when a
group has no numeric-dtype column, not when numeric columns are all
missing. -/
theorem mean_excludes_missing (df : Table) (fsel ssel : List String)
    (reset : Bool) :
    (∀ (n : Nat) (avg m : Option Rat),
        (update_dashboard df fsel ssel reset).summary = .stats n avg m →
          avg = colMean (getCol (filteredOf df fsel ssel reset) overallIdx))
    ∧ (∀ (data : List (String × Option Rat)) (ttl : String),
        (update_dashboard df fsel ssel reset).figCare = Fig.bar data ttl →
          data.Perm (groupMeans (filteredOf df fsel ssel reset) careIdxs))
    ∧ (∀ (data : List (String × Option Rat)) (ttl : String),
        (update_dashboard df fsel ssel reset).figFacility = Fig.bar data ttl →
          data.Perm (groupMeans (filteredOf df fsel ssel reset) facIdxs))
    ∧ (∀ cells : List Cell, colMean (Cell.missing :: cells) = colMean cells)
    ∧ (∀ cells : List Cell, cells.filterMap Cell.toNum = [] →
        colMean cells = none)
    ∧ (∀ cells : List Cell, cells.filterMap Cell.toNum ≠ [] →
        colMean cells
          = some ((cells.filterMap Cell.toNum).sum
              / ((cells.filterMap Cell.toNum).length : Rat))) := by
  refine ⟨?_, ?_, ?_, ?_, ?_, ?_⟩
  · intro n avg m h
    by_cases hfe : (filteredOf df fsel ssel reset).isEmpty
    · simp [update_dashboard, hfe] at h
    · simp only [update_dashboard, hfe, Bool.false_eq_true, if_false] at h
      injection h with h1 h2 h3
      exact h2.symm
  · intro data ttl h
    by_cases hfe : (filteredOf df fsel ssel reset).isEmpty
    · simp [update_dashboard, hfe] at h
    · simp only [update_dashboard, hfe, Bool.false_eq_true, if_false] at h
      split at h
      · injection h with h1 h2
        exact h1 ▸ seriesSortDesc_perm _
      · exact Fig.noConfusion h
  · intro data ttl h
    by_cases hfe : (filteredOf df fsel ssel reset).isEmpty
    · simp [update_dashboard, hfe] at h
    · simp only [update_dashboard, hfe, Bool.false_eq_true, if_false] at h
      split at h
      · injection h with h1 h2
        exact h1 ▸ seriesSortDesc_perm _
      · exact Fig.noConfusion h
  · intro cells
    simp [colMean, List.filterMap_cons, Cell.toNum]
  · intro cells h
    simp [colMean, h]
  · intro cells h
    simp [colMean, h]

theorem mean_excludes_missing_witness :
    (some (2 : Rat) : Option Rat)
        = colMean (getCol (filteredOf sampleTwo ["B"] ["all"] false) overallIdx)
    ∧ sampleTwoBCareData.Perm
        (groupMeans (filteredOf sampleTwo ["B"] ["all"] false) careIdxs) :=
  ⟨(mean_excludes_missing sampleTwo ["B"] ["all"] false).1 1 (some 2) (some 3)
      sampleTwoB_summary,
   (mean_excludes_missing sampleTwo ["B"] ["all"] false).2.1
      sampleTwoBCareData "Average Care Satisfaction Scores" sampleTwoB_figCare⟩

/-- C5 counterexample: on a table with a row whose facility is missing, the
sentinel keeps that row but selecting every present facility value drops it,
so the two subsets differ. -/
theorem all_sentinel_counterexample :
    facilityFilter ["all"] missingFacility
      ≠ facilityFilter (facility_values missingFacility) missingFacility := by
  decide

/-- C5 as amended: selecting every value present in a dimension is equivalent
to the sentinel, provided no row has a missing value in that dimension. -/
theorem all_sentinel_equiv (t : Table) :
    ((∀ r ∈ t, r.health_facility.isSome = true) →
      facilityFilter (facility_values t) t = facilityFilter ["all"] t)
    ∧ ((∀ r ∈ t, r.respondent_sex.isSome = true) →
      sexFilter (sex_values t) t = sexFilter ["all"] t) := by
  constructor
  · intro hall
    have hrhs : facilityFilter ["all"] t = t := rfl
    rw [hrhs]
    unfold facilityFilter
    split
    · apply List.filter_eq_self.mpr
      intro r hr
      obtain ⟨s, hs⟩ := Option.isSome_iff_exists.mp (hall r hr)
      have hmem : s ∈ facility_values t := by
        apply (sortStr_perm _).mem_iff.mpr
        apply List.mem_dedup.mpr
        exact List.mem_filterMap.mpr ⟨r, hr, hs⟩
      simp only [isinOpt, hs]
      simpa using hmem
    · rfl
  · intro hall
    have hrhs : sexFilter ["all"] t = t := rfl
    rw [hrhs]
    unfold sexFilter
    split
    · apply List.filter_eq_self.mpr
      intro r hr
      obtain ⟨s, hs⟩ := Option.isSome_iff_exists.mp (hall r hr)
      have hmem : s ∈ sex_values t := by
        apply (sortStr_perm _).mem_iff.mpr
        apply List.mem_dedup.mpr
        exact List.mem_filterMap.mpr ⟨r, hr, hs⟩
      simp only [isinOpt, hs]
      simpa using hmem
    · rfl

theorem all_sentinel_equiv_witness :
    facilityFilter (facility_values sampleTwo) sampleTwo
        = facilityFilter ["all"] sampleTwo
    ∧ sexFilter (sex_values sampleTwo) sampleTwo
        = sexFilter ["all"] sampleTwo :=
  ⟨(all_sentinel_equiv sampleTwo).1 (by decide),
   (all_sentinel_equiv sampleTwo).2 (by decide)⟩

end Dashboard
